import Mathlib

/-!
Verification of the download orchestration core of the insta-downloader-gui
repository: URL validation (src/utils/url_validator.py), the two download
engine adapters (src/agents/yt_dlp.py, src/agents/instaloader.py), the
orchestrator fallback policy (src/core/downloader.py), the local and remote
transcription adapters (src/core/transcriber.py, src/core/groq_transcriber.py)
and the option construction of the GUI shell (src/ui/main_window.py).

Python code is shallowly embedded: pure string manipulation is translated
directly; calls that reach the network, the filesystem or a subprocess are
modelled as explicit parameters (a "world" record per adapter call) carrying
the outcome of each external interaction; a raised Python exception is an
`Except.error` carrying `str(e)`; a caught exception is a `match` on that
`Except`.
-/

namespace InstaDl

/-! ### Python string helpers -/

/-- First index (if any) at which `needle` occurs as a contiguous sublist of
`hay`; this is Python's `hay.find(needle)` with `-1` mapped to `none`. -/
def subFind : List Char → List Char → Option Nat
  | [], needle => if needle.isEmpty then some 0 else none
  | c :: t, needle =>
    if needle.isPrefixOf (c :: t) then some 0
    else (subFind t needle).map (· + 1)

/-- Python's `needle in hay` substring test. -/
def subContains (hay needle : List Char) : Bool :=
  (subFind hay needle).isSome

/-- Python's `hay.split(needle, 1)[1]` when `needle` occurs in `hay`:
everything after the first occurrence; `none` when it does not occur. -/
def pySplitAfterFirst (hay needle : List Char) : Option (List Char) :=
  (subFind hay needle).map (fun i => hay.drop (i + needle.length))

/-- Python's `l.find(c, start)`: first index `≥ start` satisfying `q`. -/
def findIdxFrom (q : Char → Bool) (l : List Char) (start : Nat) : Option Nat :=
  match (l.drop start).findIdx? q with
  | some j => some (start + j)
  | none => none

/-- Python's `l.rfind(c)`: last index satisfying `q`. -/
def rfindIdx (q : Char → Bool) (l : List Char) : Option Nat :=
  match l.reverse.findIdx? q with
  | some j => some (l.length - 1 - j)
  | none => none

/-- Python's `s.endswith(suffix)`. -/
def pyEndsWith (s suffix : String) : Bool :=
  suffix.data.isSuffixOf s.data

/-- Replace every occurrence of a nonempty pattern, left to right; the fuel
equals the input length, which bounds the number of replacements since each
step consumes at least one character of the input. -/
def replaceSubAux : Nat → List Char → List Char → List Char → List Char
  | 0, l, _, _ => l
  | fuel + 1, l, pat, rep =>
    match subFind l pat with
    | none => l
    | some i => l.take i ++ rep ++ replaceSubAux fuel (l.drop (i + pat.length)) pat rep

/-- Python's `s.replace(pat, rep)` for a nonempty pattern (the only use in
the source replaces `.m4a`). -/
def pyReplace (s pat rep : String) : String :=
  if pat.isEmpty then s
  else String.mk (replaceSubAux s.data.length s.data pat.data rep.data)

/-! ### Embedding of `urllib.parse.urlparse` (netloc and path components)

Model of CPython's `urlsplit`/`urlparse` restricted to the two components
the validator reads, following CPython ≥ 3.10: leading WHATWG C0-control and
space characters are stripped, ASCII tab/CR/LF are removed everywhere, a
scheme prefix is split off, the netloc is taken after `//` up to the first
of `/?#`, then fragment and query are split off and the params of the last
path segment are split off.  The cases in which CPython raises `ValueError`
(mismatched or bracketed IPv6 netlocs, non-ASCII netlocs failing the NFKC
check) are collapsed into a parse error: the validator under verification
wraps the parse in `try/except` and returns `False` on any raise, and every
such netloc also differs from the two accepted hostnames, so the collapse
does not change the validator's value on any input. -/

/-- Bytes removed anywhere in the URL by `urlsplit` (tab, CR, LF). -/
def isUnsafeUrlChar (c : Char) : Bool :=
  c == '\t' || c == '\r' || c == '\n'

/-- WHATWG C0 control or space (stripped from the front of the URL). -/
def isC0OrSpace (c : Char) : Bool :=
  c.val ≤ 32

/-- ASCII letter test (`str.isascii() and str.isalpha()` on one char). -/
def isAsciiAlpha (c : Char) : Bool :=
  ('a' ≤ c && c ≤ 'z') || ('A' ≤ c && c ≤ 'Z')

/-- Characters allowed in a URL scheme (`scheme_chars` in CPython). -/
def isSchemeChar (c : Char) : Bool :=
  isAsciiAlpha c || ('0' ≤ c && c ≤ '9') || c == '+' || c == '-' || c == '.'

/-- Schemes for which `urlparse` splits params off the last path segment
(CPython's `uses_params`; the empty string covers the default `scheme=` of
a URL that carries no scheme of its own). -/
def usesParams : List (List Char) :=
  ["", "ftp", "hdl", "prospero", "http", "imap", "https", "shttp", "rtsp",
   "rtsps", "rtspu", "sip", "sips", "mms", "sftp", "tel"].map String.data

/-- Split off a leading `scheme:` when the prefix before the first colon is
a well-formed scheme, as `urlsplit` does: returns the lowercased scheme
(empty when absent, matching the default scheme argument) and the
remainder of the URL. -/
def splitScheme (u : List Char) : List Char × List Char :=
  match u.findIdx? (· == ':') with
  | some i =>
    if 0 < i && (u.headD ' ' |> isAsciiAlpha) && (u.take i).all isSchemeChar then
      ((u.take i).map Char.toLower, u.drop (i + 1))
    else ([], u)
  | none => ([], u)

/-- Split netloc and remainder out of a URL known to start with `//`
(CPython's `_splitnetloc(url, 2)`). -/
def splitNetlocRest (u : List Char) : List Char × List Char :=
  let afterSlashes := u.drop 2
  match afterSlashes.findIdx? (fun c => c == '/' || c == '?' || c == '#') with
  | some j => (afterSlashes.take j, afterSlashes.drop j)
  | none => (afterSlashes, [])

/-- Split off the params of the last path segment, as `urlparse` does on top
of `urlsplit` (CPython's `_splitparams`, reached only when `;` is present). -/
def splitParams (p : List Char) : List Char :=
  if p.contains ';' then
    if p.contains '/' then
      match rfindIdx (· == '/') p with
      | some r =>
        match findIdxFrom (· == ';') p r with
        | some i => p.take i
        | none => p
      | none => p
    else p.takeWhile (· != ';')
  else p

/-- Netloc and path of `urlparse(s)`, or a parse error where CPython
raises.  Params are split off the last path segment only when the parsed
scheme belongs to `uses_params`, as `urlparse` does on top of `urlsplit`. -/
def pyUrlparseNetlocPath (s : String) : Except Unit (List Char × List Char) :=
  let u0 := s.data.dropWhile isC0OrSpace
  let u1 := u0.filter (fun c => !isUnsafeUrlChar c)
  let sr := splitScheme u1
  let nr := if sr.2.take 2 = ['/', '/'] then splitNetlocRest sr.2 else ([], sr.2)
  if nr.1.contains '[' || nr.1.contains ']'
      || nr.1.any (fun c => 128 ≤ c.val) then
    .error ()
  else
    .ok (nr.1,
      if usesParams.contains sr.1 then
        splitParams ((nr.2.takeWhile (· != '#')).takeWhile (· != '?'))
      else
        (nr.2.takeWhile (· != '#')).takeWhile (· != '?'))

/-! ### Embedding of `is_valid_instagram_url` (src/utils/url_validator.py) -/

/-- Embedding of `is_valid_instagram_url`.  The `try/except` of the source
maps a parse error to `False`; `parsed.netloc not in [...]` is the netloc
membership test; `path.split(m, 1)` yielding fewer than 2 parts is the
`none` case of `pySplitAfterFirst`; `parts[1].split("/")[0]` is
`takeWhile (· != '/')`. -/
def is_valid_instagram_url (url : String) : Bool :=
  match pyUrlparseNetlocPath url with
  | .error _ => false
  | .ok (netloc, path) =>
    if !(netloc == "instagram.com".data || netloc == "www.instagram.com".data) then
      false
    else
      match pySplitAfterFirst path "/reel/".data with
      | some rest => !(rest.takeWhile (· != '/')).isEmpty
      | none =>
        match pySplitAfterFirst path "/p/".data with
        | some rest => !(rest.takeWhile (· != '/')).isEmpty
        | none => false

/-- Identifier token immediately following the first occurrence of marker
`m` in `path`, up to the next `/` or `?`, nonempty — the claim's reading of
one marker clause. -/
def markerTokenNonempty (path m : List Char) : Bool :=
  match pySplitAfterFirst path m with
  | some rest => !(rest.takeWhile (fun c => c != '/' && c != '?')).isEmpty
  | none => false

/-- Validity predicate following the claim's words: host is the canonical
domain with or without `www.`, and the path contains the marker `/reel/` or
`/p/` with a nonempty identifier token immediately after that marker. -/
def specValidUrl (url : String) : Bool :=
  match pyUrlparseNetlocPath url with
  | .error _ => false
  | .ok (netloc, path) =>
    (netloc == "instagram.com".data || netloc == "www.instagram.com".data) &&
    (markerTokenNonempty path "/reel/".data || markerTokenNonempty path "/p/".data)

/-- Validity predicate following the amended claim's words: same host test,
but when the path contains `/reel/` the decision rests solely on the token
after the first `/reel/`; the `/p/` marker is consulted only when `/reel/`
is absent from the path. -/
def amendedValidUrl (url : String) : Bool :=
  match pyUrlparseNetlocPath url with
  | .error _ => false
  | .ok (netloc, path) =>
    (netloc == "instagram.com".data || netloc == "www.instagram.com".data) &&
    (if subContains path "/reel/".data then
       markerTokenNonempty path "/reel/".data
     else
       markerTokenNonempty path "/p/".data)

/-! ### Data model

`DownloadOptions` is the options dictionary built by the shells; all five
shells pass every key, so the `dict.get(key, default)` reads of the agents
always see the caller's value and the record needs no missing-key state.
`ReelResult` is the result mapping assembled by the engine adapters; a key
absent from the Python dict is `none`.  `Event` is one emission of the
`progress_updated` / `download_completed` / `error_occurred` Qt signals. -/

instance {ε α : Type} [DecidableEq ε] [DecidableEq α] : DecidableEq (Except ε α) :=
  fun a b =>
  match a, b with
  | .ok x, .ok y =>
    if h : x = y then isTrue (by rw [h]) else isFalse (fun hh => h (Except.ok.inj hh))
  | .error e, .error f =>
    if h : e = f then isTrue (by rw [h]) else isFalse (fun hh => h (Except.error.inj hh))
  | .ok _, .error _ => isFalse (fun hh => Except.noConfusion hh)
  | .error _, .ok _ => isFalse (fun hh => Except.noConfusion hh)

structure DownloadOptions where
  video : Bool
  thumbnail : Bool
  audio : Bool
  caption : Bool
  transcribe : Bool
  downloader : String
deriving Repr, DecidableEq

/-- Embedding of the options construction in `MainWindow.start_download`
(src/ui/main_window.py): the dictionary literal passes each checkbox value
through unchanged. -/
def mkOptions (video thumbnail audio caption transcribe : Bool)
    (downloader : String) : DownloadOptions :=
  { video := video, thumbnail := thumbnail, audio := audio,
    caption := caption, transcribe := transcribe, downloader := downloader }

structure ReelResult where
  folder_path : Option String := none
  video_path : Option String := none
  thumbnail_path : Option String := none
  caption_path : Option String := none
  caption : Option String := none
  audio_path : Option String := none
  title : Option String := none
  transcript : Option String := none
  transcript_path : Option String := none
deriving Repr, DecidableEq

inductive Event where
  | progress (url : String) (pct : Nat) (msg : String)
  | completed (url : String) (result : ReelResult)
  | error (url : String) (msg : String)
deriving Repr, DecidableEq

/-- Percent carried by a progress event (`0` for the other signals, which
carry no percent). -/
def Event.pct : Event → Option Nat
  | .progress _ p _ => some p
  | _ => none

/-- Percents of the progress events of a trace, in emission order. -/
def progressPcts (evs : List Event) : List Nat :=
  evs.filterMap Event.pct

/-- Whether an event is an `error_occurred` emission. -/
def Event.isError : Event → Bool
  | .error _ _ => true
  | _ => false

/-- Python's `x or default` on an optional string: `None` and the empty
string both fall back to the default. -/
def pyOrDefault (o : Option String) (d : String) : String :=
  match o with
  | some t => if t.isEmpty then d else t
  | none => d

/-- Result of one engine adapter call: the progress events it emitted and
either the result mapping or the raised exception's message. -/
structure AgentRun where
  events : List Event
  out : Except String ReelResult
deriving Repr, DecidableEq

/-! ### Embedding of the yt-dlp engine adapter (src/agents/yt_dlp.py)

External interactions of one `download_reel` call are a `YtDlpWorld`:
binary availability, the video-download subprocess, the `--dump-json`
metadata subprocess, the thumbnail HTTP fetch (together with the file
write), the caption file write, and the moviepy audio extraction. -/

structure YtMeta where
  thumbnail : Option String := none
  description : Option String := none
  title : Option String := none
deriving Repr, DecidableEq

structure YtDlpWorld where
  ensureYtDlp : Bool
  exeExists : Bool
  binDir : String
  videoDl : Except String Unit
  metadata : Except String YtMeta
  thumbFetch : Except String Unit
  captionWrite : Except String Unit
  isFrozen : Bool
  ensureFfmpeg : Bool
  videoFileExists : Bool
  audioExtractOk : Bool
deriving Repr, DecidableEq

/-- Embedding of yt_dlp.`_extract_audio`, reached only under the
`download_options.get("audio")` gate of `download_reel` (the function's own
repeated audio check is therefore always true).  Every failure inside the
moviepy block is swallowed (`except Exception: pass`); success records
`audio_path`. -/
def ytDlp_extract_audio (w : YtDlpWorld) (folder : String) (n : Nat)
    (r : ReelResult) : List Event × ReelResult :=
  if w.isFrozen && !w.ensureFfmpeg then
    ([.progress "" 60 "FFmpeg not available, skipping audio extraction..."], r)
  else
    let ev := Event.progress "" 60 "Extracting audio..."
    if !w.videoFileExists then ([ev], r)
    else if w.audioExtractOk then
      ([ev], { r with audio_path := some (folder ++ "/audio" ++ toString n ++ ".mp3") })
    else ([ev], r)

/-- Thumbnail block of yt_dlp.`download_reel` (lines guarded by
`download_options.get("thumbnail")`): fetched only when the metadata carries
a thumbnail URL; no `try/except`, so an HTTP failure propagates. -/
def ytDlp_thumbnail_step (opts : DownloadOptions) (w : YtDlpWorld)
    (meta : YtMeta) (folder : String) (n : Nat) (r : ReelResult) :
    Except String ReelResult :=
  if opts.thumbnail then
    match meta.thumbnail with
    | some _ =>
      match w.thumbFetch with
      | .ok _ =>
        .ok { r with thumbnail_path := some (folder ++ "/thumbnail" ++ toString n ++ ".jpg") }
      | .error e => .error e
    | none => .ok r
  else .ok r

/-- Caption block of yt_dlp.`download_reel`: writes the description (or a
default) to the caption file; no `try/except`, so a write failure
propagates. -/
def ytDlp_caption_step (opts : DownloadOptions) (w : YtDlpWorld)
    (meta : YtMeta) (folder : String) (n : Nat) (r : ReelResult) :
    Except String ReelResult :=
  if opts.caption then
    match w.captionWrite with
    | .error e => .error e
    | .ok _ =>
      let text := match meta.description with
        | some d => d
        | none => "No caption available"
      .ok { r with caption_path := some (folder ++ "/caption" ++ toString n ++ ".txt"),
                   caption := some text }
  else .ok r

/-- Embedding of yt_dlp.`download_reel`.  The thumbnail and caption blocks
carry no `try/except`: a thumbnail HTTP failure or a caption write failure
propagates out of the call. -/
def ytDlp_download_reel (opts : DownloadOptions) (w : YtDlpWorld)
    (url sessionFolder : String) (n : Nat) : AgentRun :=
  let folder := sessionFolder ++ "/reel" ++ toString n
  let r0 : ReelResult := { folder_path := some folder }
  if !w.ensureYtDlp then
    { events := [],
      out := .error "Failed to download yt-dlp.exe. Please check your internet connection." }
  else if !w.exeExists then
    { events := [], out := .error ("yt-dlp.exe not found at " ++ w.binDir ++ "/yt-dlp.exe") }
  else
    let ev10 := Event.progress url 10 "Downloading with yt-dlp..."
    match w.videoDl with
    | .error e => { events := [ev10], out := .error e }
    | .ok _ =>
      let r1 := { r0 with video_path := some (folder ++ "/video" ++ toString n ++ ".mp4") }
      match w.metadata with
      | .error e => { events := [ev10], out := .error e }
      | .ok meta =>
        match ytDlp_thumbnail_step opts w meta folder n r1 with
        | .error e => { events := [ev10], out := .error e }
        | .ok r2 =>
          match ytDlp_caption_step opts w meta folder n r2 with
          | .error e => { events := [ev10], out := .error e }
          | .ok r3 =>
            let (audioEvs, r4) :=
              if opts.audio then ytDlp_extract_audio w folder n r3 else ([], r3)
            let title := match meta.title with
              | some t => t
              | none => "Reel " ++ toString n
            { events := [ev10] ++ audioEvs ++ [.progress url 100 "Completed"],
              out := .ok { r4 with title := some title } }

/-! ### Embedding of the Instaloader engine adapter (src/agents/instaloader.py) -/

/-- The attributes of an `instaloader.Post` read by the adapter.
`thumbUrl` models the `thumbnail_url`-or-`url` attribute lookup; `none`
means neither attribute exists and the lookup raises `AttributeError`
(outside any `try`, so it aborts the call).  `caption` is `post.caption`
(`none` is Python `None`). -/
structure InstaPost where
  thumbUrl : Option String := none
  caption : Option String := none
deriving Repr, DecidableEq

structure InstaWorld where
  post : Except String InstaPost
  videoFetch : Except String Unit
  thumbFetch : Except String Unit
  audioExtractOk : Bool
  captionWrite : Except String Unit
deriving Repr, DecidableEq

/-- Result of one Instaloader adapter call; `wroteVideo` records whether
`video{n}.mp4` was written into the item folder on disk (the result mapping
does not carry this fact). -/
structure InstaRun where
  events : List Event
  out : Except String ReelResult
  wroteVideo : Bool
deriving Repr, DecidableEq

/-- Embedding of instaloader.`_extract_shortcode`.  The source splits on the
full marker, takes element 1 and then truncates at the next `/` and `?`;
since a further marker occurrence starts with `/`, this equals truncating
everything after the first occurrence at the next `/` and `?`. -/
def _extract_shortcode (url : String) : Option String :=
  match pySplitAfterFirst url.data "/reel/".data with
  | some rest => some (String.mk ((rest.takeWhile (· != '/')).takeWhile (· != '?')))
  | none =>
    match pySplitAfterFirst url.data "/p/".data with
    | some rest => some (String.mk ((rest.takeWhile (· != '/')).takeWhile (· != '?')))
    | none => none

/-- Gate of instaloader.`_download_video`: video is needed for audio when
audio extraction or transcription is requested. -/
def insta_need_video_for_audio (opts : DownloadOptions) : Bool :=
  opts.audio || opts.transcribe

/-- Embedding of instaloader.`_download_video`: downloads the video file
whenever `video` is requested or the video is needed as audio source, but
records `video_path` in the result only when `video` itself is requested.
Returns the updated result and whether the file was written; an HTTP
failure is re-raised as `Video download failed: ...`. -/
def insta_download_video (opts : DownloadOptions) (w : InstaWorld)
    (folder : String) (n : Nat) (r : ReelResult) :
    List Event × Except String (ReelResult × Bool) :=
  if opts.video || insta_need_video_for_audio opts then
    ([.progress "" 20 "Downloading video..."],
      match w.videoFetch with
      | .error e => .error ("Video download failed: " ++ e)
      | .ok _ =>
        let r1 := if opts.video then
            { r with video_path := some (folder ++ "/video" ++ toString n ++ ".mp4") }
          else r
        .ok (r1, true))
  else ([], .ok (r, false))

/-- Embedding of instaloader.`_download_thumbnail`: the attribute lookup
happens before the `try` and aborts on `AttributeError`; the HTTP fetch and
file write are inside the `try` and their failure is swallowed, leaving the
`thumbnail_path` key absent.  The `dir(post)` listing of the source's
message is omitted. -/
def insta_download_thumbnail (opts : DownloadOptions) (w : InstaWorld)
    (p : InstaPost) (folder : String) (n : Nat) (r : ReelResult) :
    List Event × Except String ReelResult :=
  if !opts.thumbnail then ([], .ok r)
  else
    let ev := Event.progress "" 40 "Downloading thumbnail."
    match p.thumbUrl with
    | none => ([ev], .error "Cannot find thumbnail URL on Post object")
    | some _ =>
      match w.thumbFetch with
      | .ok _ =>
        ([ev], .ok { r with thumbnail_path := some (folder ++ "/thumbnail" ++ toString n ++ ".jpg") })
      | .error _ => ([ev], .ok r)

/-- Embedding of instaloader.`_extract_audio`: the source falls back from
`result["video_path"]` to the conventional `video{n}.mp4` file in the fresh
per-item folder, so the `os.path.exists` test holds exactly when this call
wrote the video; extraction failure is swallowed, leaving `audio_path`
absent. -/
def insta_extract_audio (opts : DownloadOptions) (w : InstaWorld)
    (wroteVideo : Bool) (folder : String) (n : Nat) (r : ReelResult) :
    List Event × ReelResult :=
  if !opts.audio then ([], r)
  else
    let ev := Event.progress "" 60 "Extracting audio..."
    if !wroteVideo then ([ev], r)
    else if w.audioExtractOk then
      ([ev], { r with audio_path := some (folder ++ "/audio" ++ toString n ++ ".mp3") })
    else ([ev], r)

/-- Embedding of instaloader.`_save_caption`: the caption text is always
recorded under `caption`; only the file write is inside the `try`, so a
write failure leaves `caption_path` absent without aborting. -/
def insta_save_caption (opts : DownloadOptions) (w : InstaWorld)
    (p : InstaPost) (folder : String) (n : Nat) (r : ReelResult) :
    List Event × ReelResult :=
  if !opts.caption then ([], r)
  else
    let ev := Event.progress "" 80 "Getting caption..."
    let text := pyOrDefault p.caption "No caption available"
    let r1 := { r with caption := some text }
    match w.captionWrite with
    | .ok _ => ([ev], { r1 with caption_path := some (folder ++ "/caption" ++ toString n ++ ".txt") })
    | .error _ => ([ev], r1)

/-- Embedding of instaloader.`download_reel`: the whole body sits in a
`try` whose handler re-raises every exception with the prefix
`Instaloader download error: `.  The `if not shortcode` truthiness test of
the source raises both when no marker was found (`None`) and when the
extracted shortcode is the empty string. -/
def instaloader_download_reel (opts : DownloadOptions) (w : InstaWorld)
    (url sessionFolder : String) (n : Nat) : InstaRun :=
  if ((_extract_shortcode url).getD "").isEmpty then
    { events := [], out := .error "Instaloader download error: Invalid Instagram URL",
      wroteVideo := false }
  else
    let ev10 := Event.progress url 10 "Fetching reel data..."
    match w.post with
    | .error e =>
      { events := [ev10], out := .error ("Instaloader download error: " ++ e),
        wroteVideo := false }
    | .ok p =>
      let folder := sessionFolder ++ "/reel" ++ toString n
      let r0 : ReelResult := { folder_path := some folder }
      let (ev1, vstep) := insta_download_video opts w folder n r0
      match vstep with
      | .error e =>
        { events := [ev10] ++ ev1, out := .error ("Instaloader download error: " ++ e),
          wroteVideo := false }
      | .ok (r1, wrote) =>
        let (ev2, tstep) := insta_download_thumbnail opts w p folder n r1
        match tstep with
        | .error e =>
          { events := [ev10] ++ ev1 ++ ev2,
            out := .error ("Instaloader download error: " ++ e), wroteVideo := wrote }
        | .ok r2 =>
          let (ev3, r3) := insta_extract_audio opts w wrote folder n r2
          let (ev4, r4) := insta_save_caption opts w p folder n r3
          { events := [ev10] ++ ev1 ++ ev2 ++ ev3 ++ ev4 ++ [.progress url 100 "Completed"],
            out := .ok { r4 with title := some ("Reel " ++ toString n) },
            wroteVideo := wrote }

/-! ### Embedding of the local transcription adapter (src/core/transcriber.py)

`AudioTranscriber.transcribe_audio_from_reel` traps every failure of its
pipeline and records it in `result["transcript"]`; the embedding is total,
matching the absence of any raise reachable from the method (the code before
its `try` only reads the result dict and emits progress). -/

structure TransWorld where
  whisperLoaded : Bool
  audioFileExists : Bool
  tempExtractOk : Bool
  ffmpegSetup : Except String Unit
  whisperOut : Except String String
  transcriptWrite : Except String Unit
deriving Repr, DecidableEq

/-- Embedding of `AudioTranscriber.transcribe_audio_from_reel`.
`audioFileExists` is the `os.path.exists` test on a recorded `audio_path`;
`tempExtractOk` is the success of `_extract_temp_audio` (video present,
moviepy extraction worked), consulted only when no `audio_path` was
recorded; `ffmpegSetup` is the inner ffmpeg availability/version block,
whose failure is recorded as `FFmpeg setup failed: ...`; `whisperOut` is
`whisper_model.transcribe(...)["text"]`; a transcript file write failure is
caught by the outer handler, overwriting the transcript with the error. -/
def transcribe_audio_from_reel (w : TransWorld) (folder : String) (n : Nat)
    (r : ReelResult) : List Event × ReelResult :=
  if !w.whisperLoaded then
    ([], { r with transcript := some "Transcription skipped: Whisper model not loaded." })
  else
    let ev90 := Event.progress "" 90 "Transcribing audio..."
    let sourceOk : Bool :=
      match r.audio_path with
      | some _ => w.audioFileExists
      | none => w.tempExtractOk
    if !sourceOk then
      ([ev90], { r with transcript := some "Transcription failed: No audio source found." })
    else
      match w.ffmpegSetup with
      | .error e => ([ev90], { r with transcript := some ("FFmpeg setup failed: " ++ e) })
      | .ok _ =>
        match w.whisperOut with
        | .error e => ([ev90], { r with transcript := some ("Transcription failed: " ++ e) })
        | .ok text =>
          match w.transcriptWrite with
          | .error e => ([ev90], { r with transcript := some ("Transcription failed: " ++ e) })
          | .ok _ =>
            ([ev90], { r with transcript := some text,
                              transcript_path := some (folder ++ "/transcript" ++ toString n ++ ".txt") })

/-! ### Embedding of the orchestrator (src/core/downloader.py)

`process_item` is the body of the per-item loop of
`ReelDownloader._process_downloads` for one item, over the two agent calls
it may make; `attempts` counts the engine invocations.  The primary-success
path routes transcription through `_handle_transcription` (which traps
everything); the fallback-success path calls the transcriber directly
inside the second `try`, where a missing `folder_path` key would surface as
the second downloader failure. -/

inductive ItemOutcome where
  | completed (result : ReelResult)
  | failed (msg : String)
deriving Repr, DecidableEq

structure ItemRun where
  events : List Event
  attempts : Nat
  outcome : ItemOutcome
deriving Repr, DecidableEq

/-- Primary and fallback engine names from the options
(`downloader` equal to `Instaloader` selects Instaloader first, anything
else selects yt-dlp first). -/
def agentNames (opts : DownloadOptions) : String × String :=
  if opts.downloader == "Instaloader" then ("Instaloader", "yt-dlp")
  else ("yt-dlp", "Instaloader")

/-- Embedding of `ReelDownloader._handle_transcription`: the `try` around
the folder lookup and the transcriber call converts a missing
`folder_path` key (`KeyError`, printed by Python as `\x27folder_path\x27`)
into a transcript annotation and a percent-0 progress event; the
transcriber itself is total. -/
def handle_transcription (tw : TransWorld) (r : ReelResult) (n : Nat)
    (url : String) : List Event × ReelResult :=
  match r.folder_path with
  | some folder => transcribe_audio_from_reel tw folder n r
  | none =>
    let msg := "Transcription failed: \x27folder_path\x27"
    ([.progress url 0 msg], { r with transcript := some msg })

/-- Embedding of the per-item body of
`ReelDownloader._process_downloads`. -/
def process_item (opts : DownloadOptions) (url : String) (n : Nat)
    (primary fallback : AgentRun) (tw : TransWorld) : ItemRun :=
  let names := agentNames opts
  let ev0 := Event.progress url 0 ("Starting download with " ++ names.1 ++ "...")
  match primary.out with
  | .ok result =>
    let (tev, result2) :=
      if opts.transcribe then handle_transcription tw result n url else ([], result)
    { events := [ev0] ++ primary.events ++ tev ++ [.completed url result2],
      attempts := 1, outcome := .completed result2 }
  | .error e1 =>
    let evFail := Event.progress url 0
      (names.1 ++ " failed: " ++ e1 ++ ". Trying fallback " ++ names.2 ++ "...")
    match fallback.out with
    | .ok result =>
      if opts.transcribe then
        match result.folder_path with
        | some folder =>
          let (tev, result2) := transcribe_audio_from_reel tw folder n result
          { events := [ev0] ++ primary.events ++ [evFail] ++ fallback.events
                        ++ tev ++ [.completed url result2],
            attempts := 2, outcome := .completed result2 }
        | none =>
          let msg := "Both downloaders failed: " ++ e1 ++ " | \x27folder_path\x27"
          { events := [ev0] ++ primary.events ++ [evFail] ++ fallback.events
                        ++ [.error url msg],
            attempts := 2, outcome := .failed msg }
      else
        { events := [ev0] ++ primary.events ++ [evFail] ++ fallback.events
                      ++ [.completed url result],
          attempts := 2, outcome := .completed result }
    | .error e2 =>
      let msg := "Both downloaders failed: " ++ e1 ++ " | " ++ e2
      { events := [ev0] ++ primary.events ++ [evFail] ++ fallback.events
                    ++ [.error url msg],
        attempts := 2, outcome := .failed msg }

/-- Per-item processing with both concrete engine adapters plugged in,
selecting primary and fallback from `opts.downloader` as the source does. -/
def process_downloads_item (opts : DownloadOptions) (iw : InstaWorld)
    (yw : YtDlpWorld) (tw : TransWorld) (url sessionFolder : String)
    (n : Nat) : ItemRun :=
  let ir := instaloader_download_reel opts iw url sessionFolder n
  let insta : AgentRun := { events := ir.events, out := ir.out }
  let yt := ytDlp_download_reel opts yw url sessionFolder n
  if opts.downloader == "Instaloader" then process_item opts url n insta yt tw
  else process_item opts url n yt insta tw

/-! ### Shell-side item state (src/core/data_models.py, src/ui/main_window.py) -/

/-- Embedding of the `ReelItem` dataclass with its defaults. -/
structure ReelItem where
  url : String
  item_type : String := "reel"
  dependency_name : String := ""
  title : String := ""
  status : String := "Pending"
  progress : Nat := 0
  thumbnail_path : String := ""
  video_path : String := ""
  audio_path : String := ""
  caption : String := ""
  transcript : String := ""
  error_message : String := ""
  folder_path : String := ""
deriving Repr, DecidableEq

/-- Embedding of the GUI shell's reaction to the two terminal signals:
`MainWindow.download_completed` copies the result fields and sets status
`Completed` without touching `error_message`; `MainWindow.download_error`
sets status `Error` and records the message in `error_message`. -/
def apply_outcome (item : ReelItem) (run : ItemRun) : ReelItem :=
  match run.outcome with
  | .completed r =>
    { item with
      status := "Completed"
      progress := 100
      title := r.title.getD "Unknown"
      video_path := r.video_path.getD ""
      audio_path := r.audio_path.getD ""
      thumbnail_path := r.thumbnail_path.getD ""
      caption := r.caption.getD ""
      transcript := r.transcript.getD ""
      folder_path := r.folder_path.getD "" }
  | .failed msg =>
    { item with status := "Error", error_message := msg }

/-! ### Embedding of the remote transcription adapter
(src/core/groq_transcriber.py): LLM cleanup pass and audio compression.
Progress reporting inside these two helpers is not modelled; no claim
refers to it. -/

/-- Characters stripped by Python's `str.strip()`: exactly the code points
satisfying `str.isspace()` — `\x09`..`\x0d`, `\x1c`..`\x20`, `\x85`,
`\xa0`, U+1680, U+2000..U+200A, U+2028, U+2029, U+202F, U+205F and
U+3000 (set enumerated from the CPython runtime). -/
def isPySpace (c : Char) : Bool :=
  (9 ≤ c.val && c.val ≤ 13) || (28 ≤ c.val && c.val ≤ 32) ||
  c.val == 133 || c.val == 160 || c.val == 5760 ||
  (8192 ≤ c.val && c.val ≤ 8202) || c.val == 8232 || c.val == 8233 ||
  c.val == 8239 || c.val == 8287 || c.val == 12288

/-- Python's `s.strip()`. -/
def pyStrip (s : String) : String :=
  String.mk (((s.data.dropWhile isPySpace).reverse.dropWhile isPySpace).reverse)

/-- Embedding of the `for model_name in self.llm_models` loop of
`GroqTranscriber.post_process_with_llm`: each backend call either succeeds
with the message content (its possibly-raising `.strip()` is part of the
`try`, so a `None` content counts as a failure) or fails; on failure the
loop returns the raw text when the failing backend's name equals the last
configured name, otherwise moves on. -/
def post_process_go (raw lastName : String) :
    List (String × Except String String) → String
  | [] => raw
  | (name, out) :: rest =>
    match out with
    | .ok content => pyStrip content
    | .error _ => if name == lastName then raw else post_process_go raw lastName rest

/-- Embedding of `GroqTranscriber.post_process_with_llm` over the list of
candidate backends paired with their call outcomes; the comparison target
is `self.llm_models[-1]`, the last configured name. -/
def post_process_with_llm (raw : String)
    (backends : List (String × Except String String)) : String :=
  post_process_go raw ((backends.map Prod.fst).getLastD "") backends

/-- The three-element candidate list built in `GroqTranscriber.__init__`
from environment overrides with fixed defaults. -/
def groq_llm_models (envPrimary envFallback1 envFallback2 : Option String) :
    List String :=
  [envPrimary.getD "meta-llama/llama-4-scout-17b-16e-instruct",
   envFallback1.getD "llama-3.3-70b-versatile",
   envFallback2.getD "llama-3.1-8b-instant"]

/-! ### Embedding of `GroqTranscriber._compress_audio_if_needed`

Sizes are exact byte counts and durations exact milliseconds: the source's
float arithmetic divides by the power of two `1024 * 1024` (exact) and
compares against `24.5` MB (`25690112` bytes, exact), and the bitrate
`int((24.5 * 8192) / (ms / 1000.0))` is modelled as the exact rational
floor `200704000 / ms`, which the clamp to `[32, 128]` makes insensitive to
the float rounding except at clamp boundaries never crossed by one ulp. -/

/-- Upload ceiling of `24.5` MB in bytes. -/
def maxUploadBytes : Nat := 25690112

/-- Bitrate formula `ceiling / duration`, clamped to 32..128 kbps. -/
def compressTargetBitrate (durationMs : Nat) : Nat :=
  max 32 (min (200704000 / durationMs) 128)

/-- Last path component, POSIX separators (`PurePath.name`). -/
def pathName (p : String) : String :=
  String.mk ((p.data.reverse.takeWhile (· != '/')).reverse)

/-- Replace the last path component (`str(Path(p).parent / newName)`,
including `Path` collapsing a `.` parent). -/
def pathJoinParentWith (p newName : String) : String :=
  match rfindIdx (· == '/') p.data with
  | some i => String.mk (p.data.take (i + 1)) ++ newName
  | none => newName

/-- File stem (`PurePath.stem`): name without its last suffix. -/
def pathStem (name : String) : String :=
  match rfindIdx (· == '.') name.data with
  | some i => if i = 0 then name else String.mk (name.data.take i)
  | none => name

structure CompressWorld where
  sizeBytes : Nat
  pydubAvailable : Bool
  pydubLoad : Except String Nat
  pydubExport : Except String Unit
  ffprobeDurationMs : Option Nat
  ffmpegRun : Except String Unit
deriving Repr, DecidableEq

/-- What a compression run produced: the path handed to the upload, the
bitrate passed to the encoder (none when no re-encode happened) and whether
the encoder was invoked in mono. -/
structure CompressOutcome where
  path : String
  bitrateKbps : Option Nat
  mono : Bool
deriving Repr, DecidableEq

/-- Embedding of `_compress_audio_if_needed`.  `pydubLoad` is
`AudioSegment.from_file` delivering `len(audio)` in ms; a zero duration is
the `ZeroDivisionError` swallowed by the `except Exception` handler.  The
pydub path's failures all return the original path; the `except
ImportError` handler's own ffmpeg subprocess failure is not caught by the
sibling `except Exception` clause and therefore propagates. -/
def _compress_audio_if_needed (w : CompressWorld) (audioPath : String) :
    Except String CompressOutcome :=
  if w.sizeBytes ≤ maxUploadBytes then .ok ⟨audioPath, none, false⟩
  else if w.pydubAvailable then
    match w.pydubLoad with
    | .error _ => .ok ⟨audioPath, none, false⟩
    | .ok ms =>
      if ms = 0 then .ok ⟨audioPath, none, false⟩
      else
        let b := compressTargetBitrate ms
        let cp0 := pathJoinParentWith audioPath ("compressed_" ++ pathName audioPath)
        let cp := if pyEndsWith cp0 ".m4a" then pyReplace cp0 ".m4a" ".mp3" else cp0
        match w.pydubExport with
        | .error _ => .ok ⟨audioPath, none, false⟩
        | .ok _ => .ok ⟨cp, some b, true⟩
  else
    let b := match w.ffprobeDurationMs with
      | some ms => if ms = 0 then 64 else compressTargetBitrate ms
      | none => 64
    let cp := pathJoinParentWith audioPath
      ("compressed_" ++ pathStem (pathName audioPath) ++ ".mp3")
    match w.ffmpegRun with
    | .error e => .error e
    | .ok _ => .ok ⟨cp, some b, true⟩

/-! ### Auxiliary predicates and concrete fixtures used by the theorems -/

/-- Fresh `ReelItem` as the shells create it for an accepted URL. -/
def mkReelItem (url : String) : ReelItem :=
  { url := url }

/-- Event carries a percent within 0..100 (non-progress events carry none). -/
def pctBounded : Event → Bool
  | .progress _ p _ => decide (p ≤ 100)
  | _ => true

/-- All progress percents of a trace lie within 0..100. -/
def pctsBounded (evs : List Event) : Bool :=
  evs.all pctBounded

/-- Monotone non-decreasing check on a percent sequence. -/
def nonDecreasing : List Nat → Bool
  | a :: b :: t => decide (a ≤ b) && nonDecreasing (b :: t)
  | _ => true

/-- Trace consisting of progress events only (what the engine adapters and
transcribers emit: they never emit completion or error signals). -/
def isProgress : Event → Bool
  | .progress _ _ _ => true
  | _ => false

def progressOnly (evs : List Event) : Bool :=
  evs.all isProgress

/-- All-success world for the yt-dlp adapter. -/
def wYtOk : YtDlpWorld :=
  { ensureYtDlp := true, exeExists := true, binDir := "bin", videoDl := .ok (),
    metadata := .ok { thumbnail := some "tu", description := some "a caption", title := some "Title" },
    thumbFetch := .ok (), captionWrite := .ok (), isFrozen := false, ensureFfmpeg := true,
    videoFileExists := true, audioExtractOk := true }

/-- All-success world for the Instaloader adapter. -/
def wInstaOk : InstaWorld :=
  { post := .ok { thumbUrl := some "tu", caption := some "a caption" }, videoFetch := .ok (),
    thumbFetch := .ok (), audioExtractOk := true, captionWrite := .ok () }

/-- All-success world for the local transcriber. -/
def wTransOk : TransWorld :=
  { whisperLoaded := true, audioFileExists := true, tempExtractOk := true,
    ffmpegSetup := .ok (), whisperOut := .ok "the transcript", transcriptWrite := .ok () }

/-- A well-formed reel URL used by concrete runs. -/
def urlABC : String :=
  "https://instagram.com/reel/ABC/"

/-! ## Supporting lemmas -/

theorem progressOnly_no_error {evs : List Event} (h : progressOnly evs = true) :
    evs.any Event.isError = false := by
  rw [List.any_eq_false]
  intro x hx
  have hh := List.all_eq_true.mp h x hx
  cases x <;> simp [Event.isError] <;> simp [isProgress] at hh

theorem transcribe_events_shape (w : TransWorld) (folder : String) (n : Nat) (r : ReelResult) :
    progressOnly (transcribe_audio_from_reel w folder n r).1 = true := by
  rcases w with ⟨wl, afe, teo, ffs, wo, tww⟩
  cases wl <;> cases afe <;> cases teo <;> cases ffs <;> cases wo <;> cases tww <;>
    cases hr : r.audio_path <;>
    simp [transcribe_audio_from_reel, progressOnly, isProgress, hr]

theorem transcribe_preserves_artifacts (w : TransWorld) (folder : String) (n : Nat) (r : ReelResult) :
    (transcribe_audio_from_reel w folder n r).2.folder_path = r.folder_path ∧
    (transcribe_audio_from_reel w folder n r).2.video_path = r.video_path ∧
    (transcribe_audio_from_reel w folder n r).2.thumbnail_path = r.thumbnail_path ∧
    (transcribe_audio_from_reel w folder n r).2.caption_path = r.caption_path ∧
    (transcribe_audio_from_reel w folder n r).2.caption = r.caption ∧
    (transcribe_audio_from_reel w folder n r).2.audio_path = r.audio_path ∧
    (transcribe_audio_from_reel w folder n r).2.title = r.title := by
  rcases w with ⟨wl, afe, teo, ffs, wo, tww⟩
  cases wl <;> cases afe <;> cases teo <;> cases ffs <;> cases wo <;> cases tww <;>
    cases hr : r.audio_path <;>
    simp [transcribe_audio_from_reel, hr]

theorem ytDlp_thumbnail_step_audio {opts : DownloadOptions} {w : YtDlpWorld}
    {meta : YtMeta} {folder : String} {n : Nat} {r r2 : ReelResult}
    (h : ytDlp_thumbnail_step opts w meta folder n r = .ok r2) :
    r2.audio_path = r.audio_path := by
  unfold ytDlp_thumbnail_step at h
  repeat' split at h
  all_goals try (injection h with h; subst h)
  all_goals simp_all

theorem ytDlp_caption_step_audio {opts : DownloadOptions} {w : YtDlpWorld}
    {meta : YtMeta} {folder : String} {n : Nat} {r r2 : ReelResult}
    (h : ytDlp_caption_step opts w meta folder n r = .ok r2) :
    r2.audio_path = r.audio_path := by
  unfold ytDlp_caption_step at h
  repeat' split at h
  all_goals try (injection h with h; subst h)
  all_goals simp_all

theorem insta_thumb_fields {opts : DownloadOptions} {w : InstaWorld} {p : InstaPost}
    {folder : String} {n : Nat} {r r2 : ReelResult}
    (h : (insta_download_thumbnail opts w p folder n r).2 = .ok r2) :
    r2.video_path = r.video_path ∧ r2.audio_path = r.audio_path ∧
    r2.caption_path = r.caption_path ∧ r2.folder_path = r.folder_path ∧
    r2.caption = r.caption := by
  unfold insta_download_thumbnail at h
  repeat' split at h
  all_goals try (injection h with h; subst h)
  all_goals simp_all

theorem insta_audio_fields (opts : DownloadOptions) (w : InstaWorld) (wrote : Bool)
    (folder : String) (n : Nat) (r : ReelResult) :
    ((insta_extract_audio opts w wrote folder n r).2).video_path = r.video_path ∧
    ((insta_extract_audio opts w wrote folder n r).2).thumbnail_path = r.thumbnail_path ∧
    ((insta_extract_audio opts w wrote folder n r).2).caption_path = r.caption_path ∧
    ((insta_extract_audio opts w wrote folder n r).2).folder_path = r.folder_path ∧
    ((insta_extract_audio opts w wrote folder n r).2).caption = r.caption := by
  unfold insta_extract_audio
  repeat' split
  all_goals simp_all

theorem insta_caption_fields (opts : DownloadOptions) (w : InstaWorld) (p : InstaPost)
    (folder : String) (n : Nat) (r : ReelResult) :
    ((insta_save_caption opts w p folder n r).2).video_path = r.video_path ∧
    ((insta_save_caption opts w p folder n r).2).thumbnail_path = r.thumbnail_path ∧
    ((insta_save_caption opts w p folder n r).2).audio_path = r.audio_path ∧
    ((insta_save_caption opts w p folder n r).2).folder_path = r.folder_path := by
  unfold insta_save_caption
  repeat' split
  all_goals simp_all

theorem splitParams_subset (p : List Char) : splitParams p ⊆ p := by
  unfold splitParams
  repeat' split
  all_goals first
  | exact List.take_subset _ _
  | exact (List.takeWhile_prefix _).subset
  | exact fun _ h => h

theorem splitParamsIte_subset (c : Prop) [Decidable c] (p : List Char) :
    (if c then splitParams p else p) ⊆ p := by
  split
  · exact splitParams_subset p
  · exact fun _ h => h

theorem path_no_qmark {s : String} {nl path : List Char}
    (h : pyUrlparseNetlocPath s = .ok (nl, path)) : ∀ c ∈ path, c ≠ '?' := by
  intro c hc
  simp only [pyUrlparseNetlocPath] at h
  split at h <;> split at h <;>
    first
    | exact Except.noConfusion h
    | (simp only [Except.ok.injEq, Prod.mk.injEq] at h
       obtain ⟨h1, h2⟩ := h
       rw [← h2] at hc
       have h3 := List.mem_takeWhile_imp (splitParamsIte_subset _ _ hc)
       exact bne_iff_ne.mp h3)

theorem token_isEmpty_eq {l : List Char} (h : ∀ c ∈ l, c ≠ '?') :
    ((l.takeWhile (fun c => c != '/' && c != '?')).isEmpty)
      = ((l.takeWhile (· != '/')).isEmpty) := by
  cases l with
  | nil => rfl
  | cons a t =>
    have ha : (a != '?') = true := bne_iff_ne.mpr (h a (List.mem_cons_self a t))
    simp only [List.takeWhile_cons, ha, Bool.and_true]
    cases haa : (a != '/') <;> simp

theorem transcribe_bounded (w : TransWorld) (folder : String) (n : Nat) (r : ReelResult) :
    pctsBounded (transcribe_audio_from_reel w folder n r).1 = true := by
  rcases w with ⟨wl, afe, teo, ffs, wo, tww⟩
  cases wl <;> cases afe <;> cases teo <;> cases ffs <;> cases wo <;> cases tww <;>
    cases hr : r.audio_path <;>
    simp [transcribe_audio_from_reel, pctsBounded, pctBounded, hr]

theorem handle_transcription_bounded (tw : TransWorld) (r : ReelResult) (n : Nat)
    (url : String) :
    pctsBounded (handle_transcription tw r n url).1 = true := by
  unfold handle_transcription
  split
  · exact transcribe_bounded tw _ n r
  · simp [pctsBounded, pctBounded]

theorem ytExtract_bounded (w : YtDlpWorld) (f : String) (n : Nat) (r : ReelResult) :
    pctsBounded (ytDlp_extract_audio w f n r).1 = true := by
  unfold ytDlp_extract_audio
  repeat' split
  all_goals simp [pctsBounded, pctBounded]

theorem ytDlp_bounded (o : DownloadOptions) (w : YtDlpWorld) (u s2 : String) (n : Nat) :
    pctsBounded (ytDlp_download_reel o w u s2 n).events = true := by
  unfold ytDlp_download_reel
  split
  · simp [pctsBounded, pctBounded]
  · split
    · simp [pctsBounded, pctBounded]
    · split
      · simp [pctsBounded, pctBounded]
      · split
        · simp [pctsBounded, pctBounded]
        · rename_i meta hmeta
          rcases hts : ytDlp_thumbnail_step o w meta (s2 ++ "/reel" ++ toString n) n
              { folder_path := some (s2 ++ "/reel" ++ toString n),
                video_path := some (s2 ++ "/reel" ++ toString n ++ "/video" ++ toString n ++ ".mp4") }
            with e | r2
          · simp [hts, pctsBounded, pctBounded]
          · rcases htc : ytDlp_caption_step o w meta (s2 ++ "/reel" ++ toString n) n r2
              with e2 | r3
            · simp [hts, htc, pctsBounded, pctBounded]
            · cases ho : o.audio
              · simp [hts, htc, ho, pctsBounded, pctBounded]
              · simp only [hts, htc, ho, pctsBounded, pctBounded, List.all_append]
                have hx := ytExtract_bounded w (s2 ++ "/reel" ++ toString n) n r3
                simp_all [pctsBounded, pctBounded, List.all_append]

theorem instaVideo_bounded (o : DownloadOptions) (w : InstaWorld) (f : String)
    (n : Nat) (r : ReelResult) :
    pctsBounded (insta_download_video o w f n r).1 = true := by
  unfold insta_download_video
  repeat' split
  all_goals simp [pctsBounded, pctBounded]

theorem instaThumb_bounded (o : DownloadOptions) (w : InstaWorld) (p : InstaPost)
    (f : String) (n : Nat) (r : ReelResult) :
    pctsBounded (insta_download_thumbnail o w p f n r).1 = true := by
  unfold insta_download_thumbnail
  repeat' split
  all_goals simp [pctsBounded, pctBounded]

theorem instaAudio_bounded (o : DownloadOptions) (w : InstaWorld) (wr : Bool)
    (f : String) (n : Nat) (r : ReelResult) :
    pctsBounded (insta_extract_audio o w wr f n r).1 = true := by
  unfold insta_extract_audio
  repeat' split
  all_goals simp [pctsBounded, pctBounded]

theorem instaCaption_bounded (o : DownloadOptions) (w : InstaWorld) (p : InstaPost)
    (f : String) (n : Nat) (r : ReelResult) :
    pctsBounded (insta_save_caption o w p f n r).1 = true := by
  unfold insta_save_caption
  repeat' split
  all_goals simp [pctsBounded, pctBounded]

theorem insta_bounded (o : DownloadOptions) (w : InstaWorld) (u s2 : String) (n : Nat) :
    pctsBounded (instaloader_download_reel o w u s2 n).events = true := by
  unfold instaloader_download_reel
  split
  · simp [pctsBounded, pctBounded]
  · split
    · simp [pctsBounded, pctBounded]
    · rename_i p hp
      rcases hv : insta_download_video o w (s2 ++ "/reel" ++ toString n) n
          { folder_path := some (s2 ++ "/reel" ++ toString n) } with ⟨ev1, vstep⟩
      have hb1 := instaVideo_bounded o w (s2 ++ "/reel" ++ toString n) n
          { folder_path := some (s2 ++ "/reel" ++ toString n) }
      rw [hv] at hb1
      rcases vstep with e | ⟨r1, wrote⟩
      · simp_all [pctsBounded, pctBounded, List.all_append, hv]
      · rcases ht2 : insta_download_thumbnail o w p (s2 ++ "/reel" ++ toString n) n r1
          with ⟨ev2, tstep⟩
        have hb2 := instaThumb_bounded o w p (s2 ++ "/reel" ++ toString n) n r1
        rw [ht2] at hb2
        rcases tstep with e | r2
        · simp_all [pctsBounded, pctBounded, List.all_append, hv, ht2]
        · rcases ha2 : insta_extract_audio o w wrote (s2 ++ "/reel" ++ toString n) n r2
            with ⟨ev3, r3⟩
          have hb3 := instaAudio_bounded o w wrote (s2 ++ "/reel" ++ toString n) n r2
          rw [ha2] at hb3
          rcases hc2 : insta_save_caption o w p (s2 ++ "/reel" ++ toString n) n r3
            with ⟨ev4, r4⟩
          have hb4 := instaCaption_bounded o w p (s2 ++ "/reel" ++ toString n) n r3
          rw [hc2] at hb4
          simp_all [pctsBounded, pctBounded, List.all_append, hv, ht2, ha2, hc2]

theorem process_item_bounded (o : DownloadOptions) (url : String) (n : Nat)
    (prim fb : AgentRun) (tw : TransWorld)
    (hp : pctsBounded prim.events = true) (hf : pctsBounded fb.events = true) :
    pctsBounded (process_item o url n prim fb tw).events = true := by
  unfold process_item
  split
  · rename_i result hout
    rcases hh : handle_transcription tw result n url with ⟨tev, r2⟩
    have hbt := handle_transcription_bounded tw result n url
    rw [hh] at hbt
    cases ho : o.transcribe <;>
      simp_all [pctsBounded, pctBounded, List.all_append, hh, ho]
  · rename_i e1 hout
    split
    · rename_i result hfb
      split
      · split
        · rename_i folder hfold
          rcases hh : transcribe_audio_from_reel tw folder n result with ⟨tev, r2⟩
          have hbt := transcribe_bounded tw folder n result
          rw [hh] at hbt
          simp_all [pctsBounded, pctBounded, List.all_append]
        · simp_all [pctsBounded, pctBounded, List.all_append]
      · simp_all [pctsBounded, pctBounded, List.all_append]
    · simp_all [pctsBounded, pctBounded, List.all_append]

theorem process_downloads_item_bounded (o : DownloadOptions) (iw : InstaWorld)
    (yw : YtDlpWorld) (tw : TransWorld) (url sess : String) (n : Nat) :
    pctsBounded (process_downloads_item o iw yw tw url sess n).events = true := by
  unfold process_downloads_item
  split
  · exact process_item_bounded _ _ _ _ _ _ (insta_bounded _ _ _ _ _) (ytDlp_bounded _ _ _ _ _)
  · exact process_item_bounded _ _ _ _ _ _ (ytDlp_bounded _ _ _ _ _) (insta_bounded _ _ _ _ _)

theorem ytDlp_success_monotone (v t a c fr ef vfe aok : Bool) (sess bin url : String)
    (n : Nat) (mth mde mti : Option String) (iw : InstaWorld) (tw : TransWorld) :
    nonDecreasing (progressPcts
      (process_downloads_item (mkOptions v t a c false "yt-dlp") iw
        { ensureYtDlp := true, exeExists := true, binDir := bin, videoDl := .ok (),
          metadata := .ok { thumbnail := mth, description := mde, title := mti },
          thumbFetch := .ok (), captionWrite := .ok (), isFrozen := fr,
          ensureFfmpeg := ef, videoFileExists := vfe, audioExtractOk := aok }
        tw url sess n).events) = true := by
  cases a <;> cases fr <;> cases ef <;> cases vfe <;> cases aok <;> cases t <;>
      cases c <;> cases mth <;>
    simp [process_downloads_item, process_item, ytDlp_download_reel, ytDlp_thumbnail_step,
      ytDlp_caption_step, ytDlp_extract_audio, mkOptions, agentNames, progressPcts,
      Event.pct, nonDecreasing]

theorem insta_success_monotone (v t a c aok2 : Bool) (sess url u2 : String)
    (cap : Option String) (tf cwf : Except String Unit) (n : Nat)
    (yw : YtDlpWorld) (tw : TransWorld)
    (hsc : ((_extract_shortcode url).getD "").isEmpty = false) :
    nonDecreasing (progressPcts
      (process_downloads_item (mkOptions v t a c false "Instaloader")
        { post := .ok { thumbUrl := some u2, caption := cap }, videoFetch := .ok (),
          thumbFetch := tf, audioExtractOk := aok2, captionWrite := cwf }
        yw tw url sess n).events) = true := by
  cases v <;> cases t <;> cases a <;> cases c <;> cases aok2 <;>
      rcases tf with e | ⟨⟩ <;> rcases cwf with e2 | ⟨⟩ <;>
    simp [process_downloads_item, process_item, instaloader_download_reel, hsc,
      insta_download_video, insta_download_thumbnail, insta_extract_audio,
      insta_save_caption, insta_need_video_for_audio, mkOptions, agentNames,
      progressPcts, Event.pct, pyOrDefault, nonDecreasing]


/-! ## Claim theorems -/

/-- Claim C1: when the primary engine's fetch raises and the secondary
engine's fetch also raises, the orchestrator marks the item failed (the
`error_occurred` signal, which the shell records as the failure status) with
an error message carrying both failure reasons, the primary's first, joined
by ` | `, and makes no third download attempt (exactly two engine calls). -/
theorem C1_both_engines_fail (opts : DownloadOptions) (url : String) (n : Nat)
    (pe fe : List Event) (e1 e2 : String) (tw : TransWorld) :
    (process_item opts url n ⟨pe, .error e1⟩ ⟨fe, .error e2⟩ tw).outcome
        = .failed ("Both downloaders failed: " ++ e1 ++ " | " ++ e2) ∧
    (process_item opts url n ⟨pe, .error e1⟩ ⟨fe, .error e2⟩ tw).attempts = 2 ∧
    Event.error url ("Both downloaders failed: " ++ e1 ++ " | " ++ e2)
        ∈ (process_item opts url n ⟨pe, .error e1⟩ ⟨fe, .error e2⟩ tw).events := by
  refine ⟨rfl, rfl, ?_⟩
  simp [process_item]

/-- Claim C2: when the primary engine's fetch raises but the secondary
engine's fetch succeeds, the orchestrator completes the item using the
secondary engine's result: a completion event carrying that result (engine
artifact fields intact) is emitted, no error event is emitted, exactly two
engine calls are made, and the shell-side item ends with status `Completed`
and an empty `error_message`. -/
theorem C2_fallback_success (v t a c tr : Bool) (d url folder : String) (n : Nat)
    (pe fe : List Event) (e1 : String) (r0 : ReelResult) (tw : TransWorld)
    (hpe : progressOnly pe = true) (hfe : progressOnly fe = true) :
    ∃ r2 : ReelResult,
      (process_item (mkOptions v t a c tr d) url n ⟨pe, .error e1⟩
          ⟨fe, .ok { r0 with folder_path := some folder }⟩ tw).outcome
        = .completed r2 ∧
      Event.completed url r2
        ∈ (process_item (mkOptions v t a c tr d) url n ⟨pe, .error e1⟩
            ⟨fe, .ok { r0 with folder_path := some folder }⟩ tw).events ∧
      (process_item (mkOptions v t a c tr d) url n ⟨pe, .error e1⟩
          ⟨fe, .ok { r0 with folder_path := some folder }⟩ tw).events.any Event.isError
        = false ∧
      (process_item (mkOptions v t a c tr d) url n ⟨pe, .error e1⟩
          ⟨fe, .ok { r0 with folder_path := some folder }⟩ tw).attempts = 2 ∧
      r2.video_path = r0.video_path ∧
      r2.thumbnail_path = r0.thumbnail_path ∧
      r2.audio_path = r0.audio_path ∧
      r2.caption_path = r0.caption_path ∧
      (apply_outcome (mkReelItem url)
        (process_item (mkOptions v t a c tr d) url n ⟨pe, .error e1⟩
          ⟨fe, .ok { r0 with folder_path := some folder }⟩ tw)).error_message = "" ∧
      (apply_outcome (mkReelItem url)
        (process_item (mkOptions v t a c tr d) url n ⟨pe, .error e1⟩
          ⟨fe, .ok { r0 with folder_path := some folder }⟩ tw)).status = "Completed" := by
  cases tr with
  | false =>
    refine ⟨{ r0 with folder_path := some folder }, rfl, ?_, ?_, rfl, rfl, rfl, rfl, rfl, ?_, ?_⟩
    · simp [process_item, mkOptions]
    · simp [process_item, mkOptions, List.any_append,
        progressOnly_no_error hpe, progressOnly_no_error hfe, Event.isError]
    · simp [apply_outcome, process_item, mkOptions, mkReelItem]
    · simp [apply_outcome, process_item, mkOptions, mkReelItem]
  | true =>
    rcases he : transcribe_audio_from_reel tw folder n { r0 with folder_path := some folder }
      with ⟨tev, r2⟩
    have hpres := transcribe_preserves_artifacts tw folder n { r0 with folder_path := some folder }
    rw [he] at hpres
    have hsh := transcribe_events_shape tw folder n { r0 with folder_path := some folder }
    rw [he] at hsh
    refine ⟨r2, ?_, ?_, ?_, ?_, ?_, ?_, ?_, ?_, ?_, ?_⟩
    · simp [process_item, mkOptions, he]
    · simp [process_item, mkOptions, he]
    · simp [process_item, mkOptions, he, List.any_append,
        progressOnly_no_error hpe, progressOnly_no_error hfe,
        progressOnly_no_error hsh, Event.isError]
    · simp [process_item, mkOptions, he]
    · simpa using hpres.2.1
    · simpa using hpres.2.2.1
    · simpa using hpres.2.2.2.2.2.1
    · simpa using hpres.2.2.2.1
    · simp [apply_outcome, process_item, mkOptions, mkReelItem, he]
    · simp [apply_outcome, process_item, mkOptions, mkReelItem, he]

/-- Claim C3, counterexample: on `https://instagram.com/reel//p/abc` the
claim's validity predicate holds (host is canonical, the path contains the
marker `/p/` immediately followed by the nonempty identifier `abc`), yet
`is_valid_instagram_url` returns false, because the `/reel/` branch is
checked first and returns early on its empty token. -/
theorem C3_counterexample :
    specValidUrl "https://instagram.com/reel//p/abc" = true ∧
    is_valid_instagram_url "https://instagram.com/reel//p/abc" = false := by
  constructor <;> rfl

/-- Claim C3, amended: `is_valid_instagram_url` returns true iff the URL's
parsed netloc is exactly the canonical domain with or without `www.` and —
with `/reel/` taking precedence — the marker consulted is `/reel/` whenever
the path contains it (`/p/` only otherwise), with a non-empty identifier
token immediately following that marker before the next `/` or `?`; the
validator is a total boolean function, so it never raises. -/
theorem C3_validator_marker_precedence (s : String) :
    is_valid_instagram_url s = amendedValidUrl s := by
  unfold is_valid_instagram_url amendedValidUrl
  cases h : pyUrlparseNetlocPath s with
  | error e => rfl
  | ok np =>
    obtain ⟨netloc, path⟩ := np
    have hq : ∀ c ∈ path, c ≠ '?' := path_no_qmark h
    by_cases hn : (netloc == "instagram.com".data || netloc == "www.instagram.com".data) = true
    · simp only [hn, Bool.not_true, Bool.true_and, Bool.false_eq_true, if_false]
      unfold markerTokenNonempty subContains pySplitAfterFirst
      cases hr : subFind path "/reel/".data with
      | some i =>
        have ht := token_isEmpty_eq (l := path.drop (i + 6))
          (fun c hc => hq c (List.drop_subset _ _ hc))
        simp [hr, ht]
      | none =>
        cases hp2 : subFind path "/p/".data with
        | some j =>
          have ht := token_isEmpty_eq (l := path.drop (j + 3))
            (fun c hc => hq c (List.drop_subset _ _ hc))
          simp [hr, hp2, ht]
        | none => simp [hr, hp2]
    · have hn2 : (netloc == "instagram.com".data || netloc == "www.instagram.com".data) = false := by
        simpa using hn
      simp [hn2]

/-- Claim C4: when the engine fetch succeeded with transcription requested
and the transcription step fails (whisper raises), the orchestrator still
completes the item: a completion event carrying the already-downloaded
artifacts is emitted, the item is annotated with the failure reason in its
transcript field, and no error event is emitted — on the primary-engine
success path and also when transcription runs after a fallback-engine
success (given the fetch result carries its `folder_path`, which every
engine success result does). -/
theorem C4_transcription_best_effort (v t a c : Bool) (d url folder ap e e1 : String) (n : Nat)
    (pe fe : List Event) (r0 : ReelResult) (teo : Bool) (tww : Except String Unit)
    (fb : AgentRun)
    (hpe : progressOnly pe = true) (hfe : progressOnly fe = true) :
    (∃ r2 : ReelResult,
      (process_item (mkOptions v t a c true d) url n
          ⟨pe, .ok { r0 with folder_path := some folder, audio_path := some ap }⟩ fb
          { whisperLoaded := true, audioFileExists := true, tempExtractOk := teo,
            ffmpegSetup := .ok (), whisperOut := .error e, transcriptWrite := tww }).outcome
        = .completed r2 ∧
      r2.transcript = some ("Transcription failed: " ++ e) ∧
      r2.video_path = r0.video_path ∧
      r2.thumbnail_path = r0.thumbnail_path ∧
      r2.audio_path = some ap ∧
      r2.caption_path = r0.caption_path ∧
      Event.completed url r2
        ∈ (process_item (mkOptions v t a c true d) url n
            ⟨pe, .ok { r0 with folder_path := some folder, audio_path := some ap }⟩ fb
            { whisperLoaded := true, audioFileExists := true, tempExtractOk := teo,
              ffmpegSetup := .ok (), whisperOut := .error e, transcriptWrite := tww }).events ∧
      (process_item (mkOptions v t a c true d) url n
          ⟨pe, .ok { r0 with folder_path := some folder, audio_path := some ap }⟩ fb
          { whisperLoaded := true, audioFileExists := true, tempExtractOk := teo,
            ffmpegSetup := .ok (), whisperOut := .error e, transcriptWrite := tww }).events.any
        Event.isError = false ∧
      (process_item (mkOptions v t a c true d) url n
          ⟨pe, .ok { r0 with folder_path := some folder, audio_path := some ap }⟩ fb
          { whisperLoaded := true, audioFileExists := true, tempExtractOk := teo,
            ffmpegSetup := .ok (), whisperOut := .error e, transcriptWrite := tww }).attempts = 1) ∧
    (∃ r2 : ReelResult,
      (process_item (mkOptions v t a c true d) url n ⟨pe, .error e1⟩
          ⟨fe, .ok { r0 with folder_path := some folder, audio_path := some ap }⟩
          { whisperLoaded := true, audioFileExists := true, tempExtractOk := teo,
            ffmpegSetup := .ok (), whisperOut := .error e, transcriptWrite := tww }).outcome
        = .completed r2 ∧
      r2.transcript = some ("Transcription failed: " ++ e) ∧
      r2.video_path = r0.video_path ∧
      r2.thumbnail_path = r0.thumbnail_path ∧
      r2.audio_path = some ap ∧
      r2.caption_path = r0.caption_path ∧
      Event.completed url r2
        ∈ (process_item (mkOptions v t a c true d) url n ⟨pe, .error e1⟩
            ⟨fe, .ok { r0 with folder_path := some folder, audio_path := some ap }⟩
            { whisperLoaded := true, audioFileExists := true, tempExtractOk := teo,
              ffmpegSetup := .ok (), whisperOut := .error e, transcriptWrite := tww }).events ∧
      (process_item (mkOptions v t a c true d) url n ⟨pe, .error e1⟩
          ⟨fe, .ok { r0 with folder_path := some folder, audio_path := some ap }⟩
          { whisperLoaded := true, audioFileExists := true, tempExtractOk := teo,
            ffmpegSetup := .ok (), whisperOut := .error e, transcriptWrite := tww }).events.any
        Event.isError = false ∧
      (process_item (mkOptions v t a c true d) url n ⟨pe, .error e1⟩
          ⟨fe, .ok { r0 with folder_path := some folder, audio_path := some ap }⟩
          { whisperLoaded := true, audioFileExists := true, tempExtractOk := teo,
            ffmpegSetup := .ok (), whisperOut := .error e, transcriptWrite := tww }).attempts = 2) := by
  have he : transcribe_audio_from_reel
      { whisperLoaded := true, audioFileExists := true, tempExtractOk := teo,
        ffmpegSetup := .ok (), whisperOut := .error e, transcriptWrite := tww }
      folder n { r0 with folder_path := some folder, audio_path := some ap }
      = ([Event.progress "" 90 "Transcribing audio..."],
         { r0 with folder_path := some folder, audio_path := some ap,
                   transcript := some ("Transcription failed: " ++ e) }) := by
    simp [transcribe_audio_from_reel]
  constructor
  · refine ⟨{ r0 with
        folder_path := some folder
        audio_path := some ap
        transcript := some ("Transcription failed: " ++ e) },
      ?_, rfl, rfl, rfl, rfl, rfl, ?_, ?_, ?_⟩
    · simp [process_item, handle_transcription, mkOptions, he]
    · simp [process_item, handle_transcription, mkOptions, he]
    · simp [process_item, handle_transcription, mkOptions, he, List.any_append,
        progressOnly_no_error hpe, Event.isError]
    · simp [process_item, handle_transcription, mkOptions, he]
  · refine ⟨{ r0 with
        folder_path := some folder
        audio_path := some ap
        transcript := some ("Transcription failed: " ++ e) },
      ?_, rfl, rfl, rfl, rfl, rfl, ?_, ?_, ?_⟩
    · simp [process_item, mkOptions, he]
    · simp [process_item, mkOptions, he]
    · simp [process_item, mkOptions, he, List.any_append,
        progressOnly_no_error hpe, progressOnly_no_error hfe, Event.isError]
    · simp [process_item, mkOptions, he]

/-- Claim C5, counterexample: the options construction passes `want_audio`
through unchanged — with `want_transcript` true and `want_audio` supplied
false the constructed options carry `audio = false`, and a fully successful
yt-dlp fetch under these options returns a result without any `audio_path`
key (the audio-extraction step never ran), contradicting the claimed
normalization. -/
theorem C5_counterexample :
    (mkOptions true true false true true "yt-dlp").audio = false ∧
    (ytDlp_download_reel (mkOptions true true false true true "yt-dlp") wYtOk
        "u" "sess" 1).out
      = .ok { folder_path := some "sess/reel1"
              video_path := some "sess/reel1/video1.mp4"
              thumbnail_path := some "sess/reel1/thumbnail1.jpg"
              caption_path := some "sess/reel1/caption1.txt"
              caption := some "a caption"
              title := some "Title" } :=
  ⟨rfl, rfl⟩

/-- Claim C5, amended: options construction passes `want_audio` through
unchanged (no normalization at construction time); instead the Instaloader
adapter's video-retrieval step treats `want_transcript` as implying the
need for the video (the audio source), while the audio-extraction steps of
both adapters run only when `want_audio` itself is true — under
`audio = false` the Instaloader extraction step is a no-op and a successful
yt-dlp fetch yields no `audio_path`. -/
theorem C5_no_audio_normalization (v t a c tr : Bool) (d : String) :
    (mkOptions v t a c tr d).audio = a ∧
    ((mkOptions v t a c tr d).video || insta_need_video_for_audio (mkOptions v t a c tr d))
      = (v || (a || tr)) ∧
    (a = false → ∀ (w : InstaWorld) (wrote : Bool) (folder : String) (n : Nat) (r : ReelResult),
        insta_extract_audio (mkOptions v t a c tr d) w wrote folder n r = ([], r)) ∧
    (a = false → ∀ (w : YtDlpWorld) (url sess : String) (n : Nat) (r2 : ReelResult),
        (ytDlp_download_reel (mkOptions v t a c tr d) w url sess n).out = .ok r2 →
        r2.audio_path = none) := by
  refine ⟨rfl, rfl, ?_, ?_⟩
  · intro ha w wrote folder n r
    simp [insta_extract_audio, mkOptions, ha]
  · intro ha w url sess n r2 h
    simp only [ytDlp_download_reel, mkOptions, ha, Bool.false_eq_true, if_false] at h
    split at h
    · simp at h
    · split at h
      · simp at h
      · split at h
        · simp at h
        · split at h
          · simp at h
          · rename_i meta
            split at h
            · simp at h
            · rename_i rT hthumb
              split at h
              · simp at h
              · rename_i rC hcap
                simp at h
                rw [← h]
                simp
                rw [ytDlp_caption_step_audio hcap, ytDlp_thumbnail_step_audio hthumb]

/-- Claim C6, counterexample: in the yt-dlp adapter a thumbnail HTTP
failure aborts the whole fetch — with thumbnails requested, metadata
carrying a thumbnail URL and the thumbnail fetch raising, `download_reel`
propagates the exception instead of returning a result with the key
omitted. -/
theorem C6_counterexample :
    (ytDlp_download_reel (mkOptions true true true true false "yt-dlp")
        { wYtOk with thumbFetch := .error "thumbnail fetch failed" }
        "u" "sess" 1).out
      = .error "thumbnail fetch failed" :=
  rfl

/-- Claim C6, amended: in the Instaloader adapter (reached past its
shortcode guard, i.e. on a URL yielding a non-empty shortcode), a
thumbnail HTTP failure or a caption file-write failure never aborts the
fetch and is represented solely by the absence of `thumbnail_path` /
`caption_path` in the returned mapping; in the yt-dlp adapter, by
contrast, a thumbnail HTTP failure or a caption write failure propagates
out of the fetch as an engine failure. -/
theorem C6_partial_artifact_policy (v a c tr t : Bool) (d url sess u e ec bin mu : String)
    (cap : Option String) (md mt : Option String) (aok vfe fr ef : Bool) (n : Nat)
    (hsc : ((_extract_shortcode url).getD "").isEmpty = false) :
    (∃ r2 : ReelResult,
      (instaloader_download_reel (mkOptions v true a c tr d)
          { post := .ok { thumbUrl := some u, caption := cap }, videoFetch := .ok (),
            thumbFetch := .error e, audioExtractOk := aok, captionWrite := .ok () }
          url sess n).out = .ok r2 ∧ r2.thumbnail_path = none) ∧
    (∃ r2 : ReelResult,
      (instaloader_download_reel (mkOptions v t a true tr d)
          { post := .ok { thumbUrl := some u, caption := cap }, videoFetch := .ok (),
            thumbFetch := .ok (), audioExtractOk := aok, captionWrite := .error ec }
          url sess n).out = .ok r2 ∧ r2.caption_path = none) ∧
    ((ytDlp_download_reel (mkOptions v true a c tr d)
        { ensureYtDlp := true, exeExists := true, binDir := bin, videoDl := .ok (),
          metadata := .ok { thumbnail := some mu, description := md, title := mt },
          thumbFetch := .error e, captionWrite := .ok (), isFrozen := fr,
          ensureFfmpeg := ef, videoFileExists := vfe, audioExtractOk := aok }
        url sess n).out = .error e) ∧
    ((ytDlp_download_reel (mkOptions v t a true tr d)
        { ensureYtDlp := true, exeExists := true, binDir := bin, videoDl := .ok (),
          metadata := .ok { thumbnail := some mu, description := md, title := mt },
          thumbFetch := .ok (), captionWrite := .error ec, isFrozen := fr,
          ensureFfmpeg := ef, videoFileExists := vfe, audioExtractOk := aok }
        url sess n).out = .error ec) := by
  refine ⟨?_, ?_, ?_, ?_⟩
  · cases v <;> cases a <;> cases c <;> cases tr <;> cases aok <;>
      simp [instaloader_download_reel, hsc, insta_download_video,
        insta_need_video_for_audio, mkOptions, insta_download_thumbnail,
        insta_extract_audio, insta_save_caption, pyOrDefault]
  · cases v <;> cases a <;> cases t <;> cases tr <;> cases aok <;>
      simp [instaloader_download_reel, hsc, insta_download_video,
        insta_need_video_for_audio, mkOptions, insta_download_thumbnail,
        insta_extract_audio, insta_save_caption, pyOrDefault]
  · simp [ytDlp_download_reel, ytDlp_thumbnail_step, mkOptions]
  · cases t <;>
      simp [ytDlp_download_reel, ytDlp_thumbnail_step, ytDlp_caption_step, mkOptions]

/-- Claim C7, counterexample: with a successful speech-to-text step
(raw text `hello`) the cleanup pass returns the empty string when the
first backend succeeds with whitespace-only content — the backend's
stripped output is returned verbatim, so the pass can return an empty
result. -/
theorem C7_counterexample :
    post_process_with_llm "hello"
      [("A", .ok "  "), ("B", .error "x"), ("C", .error "y")] = "" ∧
    "hello" ≠ "" := by
  constructor
  · rfl
  · decide

/-- Claim C7, amended: in the remote variant's cleanup pass over the three
configured backends, provided the first two configured names differ from
the last (true of the default configuration), the backends are tried in
priority order, the first success's whitespace-stripped output is returned,
and if all three fail the unmodified raw text is returned; the pass is a
total function (never raises), and its result is non-empty whenever the
raw text is non-empty and every succeeding backend's stripped output is
non-empty. -/
theorem C7_cleanup_fallback (m1 m2 m3 raw : String) (o1 o2 o3 : Except String String)
    (h1 : m1 ≠ m3) (h2 : m2 ≠ m3) :
    (∀ c1, o1 = .ok c1 →
      post_process_with_llm raw [(m1, o1), (m2, o2), (m3, o3)] = pyStrip c1) ∧
    (∀ e c2, o1 = .error e → o2 = .ok c2 →
      post_process_with_llm raw [(m1, o1), (m2, o2), (m3, o3)] = pyStrip c2) ∧
    (∀ e f c3, o1 = .error e → o2 = .error f → o3 = .ok c3 →
      post_process_with_llm raw [(m1, o1), (m2, o2), (m3, o3)] = pyStrip c3) ∧
    (∀ e f g, o1 = .error e → o2 = .error f → o3 = .error g →
      post_process_with_llm raw [(m1, o1), (m2, o2), (m3, o3)] = raw) ∧
    (raw ≠ "" →
      (∀ ci, (o1 = .ok ci ∨ o2 = .ok ci ∨ o3 = .ok ci) → pyStrip ci ≠ "") →
      post_process_with_llm raw [(m1, o1), (m2, o2), (m3, o3)] ≠ "") := by
  have hb1 : (m1 == m3) = false := beq_eq_false_iff_ne.mpr h1
  have hb2 : (m2 == m3) = false := beq_eq_false_iff_ne.mpr h2
  refine ⟨?_, ?_, ?_, ?_, ?_⟩
  · intro c1 ho1
    simp [post_process_with_llm, post_process_go, ho1]
  · intro e c2 ho1 ho2
    simp [post_process_with_llm, post_process_go, ho1, ho2, hb1]
  · intro e f c3 ho1 ho2 ho3
    simp [post_process_with_llm, post_process_go, ho1, ho2, ho3, hb1, hb2]
  · intro e f g ho1 ho2 ho3
    simp [post_process_with_llm, post_process_go, ho1, ho2, ho3, hb1, hb2]
  · intro hraw hok
    rcases o1 with e1 | c1
    · rcases o2 with e2 | c2
      · rcases o3 with e3 | c3
        · simp [post_process_with_llm, post_process_go, hb1, hb2]
          exact hraw
        · simp [post_process_with_llm, post_process_go, hb1, hb2]
          exact hok c3 (Or.inr (Or.inr rfl))
      · simp [post_process_with_llm, post_process_go, hb1]
        exact hok c2 (Or.inr (Or.inl rfl))
    · simp [post_process_with_llm, post_process_go]
      exact hok c1 (Or.inl rfl)

/-- Claim C8, counterexample: when pydub is unavailable and the ffmpeg
re-encoding subprocess fails, `_compress_audio_if_needed` does not fall
back to the original path — the subprocess failure propagates out of the
`except ImportError` handler as an exception. -/
theorem C8_counterexample :
    _compress_audio_if_needed
      { sizeBytes := 30000000, pydubAvailable := false, pydubLoad := .ok 1,
        pydubExport := .ok (), ffprobeDurationMs := some 600000,
        ffmpegRun := .error "ffmpeg exited 1" } "/a/b.mp3"
      = .error "ffmpeg exited 1" := by rfl

/-- Claim C8, amended: audio at or below the 24.5 MB ceiling is passed
through unchanged; oversized audio is re-encoded to mono at the bitrate
`ceiling / duration` clamped to 32..128 kbps; a failure of the pydub
re-encoding path returns the original path; but a failure of the ffmpeg
subprocess in the pydub-unavailable branch propagates as an exception
(caught only further up by the transcription adapter's catch-all). -/
theorem C8_compression_policy :
    (∀ (w : CompressWorld) (p : String), w.sizeBytes ≤ maxUploadBytes →
      _compress_audio_if_needed w p = .ok ⟨p, none, false⟩) ∧
    (∀ (sz ms : Nat) (p : String) (dm : Option Nat) (fr : Except String Unit),
      maxUploadBytes < sz → ms ≠ 0 →
      _compress_audio_if_needed
        { sizeBytes := sz, pydubAvailable := true, pydubLoad := .ok ms,
          pydubExport := .ok (), ffprobeDurationMs := dm, ffmpegRun := fr } p
        = .ok ⟨(if pyEndsWith (pathJoinParentWith p ("compressed_" ++ pathName p)) ".m4a" then
                  pyReplace (pathJoinParentWith p ("compressed_" ++ pathName p)) ".m4a" ".mp3"
                else pathJoinParentWith p ("compressed_" ++ pathName p)),
               some (compressTargetBitrate ms), true⟩) ∧
    (∀ (sz ms : Nat) (p e : String) (dm : Option Nat) (fr : Except String Unit),
      maxUploadBytes < sz → ms ≠ 0 →
      _compress_audio_if_needed
        { sizeBytes := sz, pydubAvailable := true, pydubLoad := .ok ms,
          pydubExport := .error e, ffprobeDurationMs := dm, ffmpegRun := fr } p
        = .ok ⟨p, none, false⟩) ∧
    (∀ (sz : Nat) (p e : String) (dm : Option Nat) (pe : Except String Unit) (pl : Except String Nat),
      maxUploadBytes < sz →
      _compress_audio_if_needed
        { sizeBytes := sz, pydubAvailable := false, pydubLoad := pl,
          pydubExport := pe, ffprobeDurationMs := dm, ffmpegRun := .error e } p
        = .error e) := by
  refine ⟨?_, ?_, ?_, ?_⟩
  · intro w p h
    simp [_compress_audio_if_needed, h]
  · intro sz ms p dm fr hsz hms
    simp [_compress_audio_if_needed, Nat.not_le.mpr hsz, hms]
  · intro sz ms p e dm fr hsz hms
    simp [_compress_audio_if_needed, Nat.not_le.mpr hsz, hms]
  · intro sz p e dm pe pl hsz
    simp [_compress_audio_if_needed, Nat.not_le.mpr hsz]

/-- Claim C9, counterexample: a concrete run whose primary yt-dlp engine
fails after emitting 10 percent — the orchestrator's fallback notice then
re-emits 0 percent — produces a per-item percent sequence that is not
monotonically non-decreasing. -/
theorem C9_counterexample :
    nonDecreasing (progressPcts
      (process_downloads_item (mkOptions true true true true false "yt-dlp")
        wInstaOk { wYtOk with videoDl := .error "network down" } wTransOk
        urlABC "sess" 1).events) = false := by
  rfl

/-- Claim C9, amended: every progress percent emitted during per-item
processing lies in [0, 100], but the sequence is non-decreasing only on
runs whose primary engine succeeds with transcription disabled (shown for
both engine orders; the Instaloader order additionally assumes a URL
yielding a non-empty shortcode); in general the fallback notice and failure
annotations re-emit percent 0 after higher percents, and transcription
events (85/90) follow the engine's 100-percent completion event. -/
theorem C9_progress_policy :
    (∀ (o : DownloadOptions) (iw : InstaWorld) (yw : YtDlpWorld) (tw : TransWorld)
        (url sess : String) (n : Nat),
        pctsBounded (process_downloads_item o iw yw tw url sess n).events = true) ∧
    (∀ (v t a c fr ef vfe aok : Bool) (sess bin url : String) (n : Nat)
        (mth mde mti : Option String) (iw : InstaWorld) (tw : TransWorld),
        nonDecreasing (progressPcts
          (process_downloads_item (mkOptions v t a c false "yt-dlp") iw
            { ensureYtDlp := true, exeExists := true, binDir := bin, videoDl := .ok (),
              metadata := .ok { thumbnail := mth, description := mde, title := mti },
              thumbFetch := .ok (), captionWrite := .ok (), isFrozen := fr,
              ensureFfmpeg := ef, videoFileExists := vfe, audioExtractOk := aok }
            tw url sess n).events) = true) ∧
    (∀ (v t a c aok2 : Bool) (sess url u2 : String) (cap : Option String)
        (tf cwf : Except String Unit) (n : Nat) (yw : YtDlpWorld) (tw : TransWorld),
        ((_extract_shortcode url).getD "").isEmpty = false →
        nonDecreasing (progressPcts
          (process_downloads_item (mkOptions v t a c false "Instaloader")
            { post := .ok { thumbUrl := some u2, caption := cap }, videoFetch := .ok (),
              thumbFetch := tf, audioExtractOk := aok2, captionWrite := cwf }
            yw tw url sess n).events) = true) :=
  ⟨process_downloads_item_bounded, ytDlp_success_monotone, insta_success_monotone⟩

/-- Claim C10: when the Instaloader adapter is called on a URL yielding a
non-empty shortcode with `want_video` false but `want_audio` or
`want_transcript` true and the video retrieval succeeds, the adapter
writes `video{N}.mp4` into the item folder on disk yet omits `video_path`
from the returned mapping — the artifact exists on disk without being
reported present. -/
theorem C10_video_on_disk_not_in_result (t c tr a : Bool) (d url sess : String) (p : InstaPost)
    (tf cw : Except String Unit) (aok : Bool) (n : Nat)
    (hsc : ((_extract_shortcode url).getD "").isEmpty = false)
    (ha : (a || tr) = true) :
    (instaloader_download_reel (mkOptions false t a c tr d)
        { post := .ok p, videoFetch := .ok (), thumbFetch := tf,
          audioExtractOk := aok, captionWrite := cw } url sess n).wroteVideo = true ∧
    (∀ r2, (instaloader_download_reel (mkOptions false t a c tr d)
        { post := .ok p, videoFetch := .ok (), thumbFetch := tf,
          audioExtractOk := aok, captionWrite := cw } url sess n).out = .ok r2 →
      r2.video_path = none) := by
  constructor
  · simp only [instaloader_download_reel, hsc, Bool.false_eq_true, if_false]
    simp [insta_download_video, mkOptions, insta_need_video_for_audio, ha]
    split
    all_goals simp_all
  · intro r2 h
    simp only [instaloader_download_reel, hsc, Bool.false_eq_true, if_false] at h
    simp only [insta_download_video, mkOptions, insta_need_video_for_audio] at h
    rw [ha] at h
    simp only [Bool.false_or, if_pos rfl, Bool.or_true] at h
    simp only [if_true] at h
    split at h
    · simp at h
    · rename_i rT hthumb
      simp only [Except.ok.injEq] at h
      rw [← h]
      show (insta_save_caption _ _ _ _ _ _).2.video_path = none
      refine Eq.trans ((insta_caption_fields _ _ _ _ _ _).1) ?_
      refine Eq.trans ((insta_audio_fields _ _ _ _ _ _).1) ?_
      exact (insta_thumb_fields hthumb).1

/-- Witness for C2 at a concrete input: both engine traces empty, primary
failing with `primary down`, fallback succeeding; the hypothesis that agent
traces carry only progress events is discharged by `rfl`. -/
theorem C2_fallback_success_witness :
    (apply_outcome (mkReelItem "u")
      (process_item (mkOptions true true true true true "Instaloader") "u" 1
        ⟨[], .error "primary down"⟩
        ⟨[], .ok { ({} : ReelResult) with folder_path := some "sess/reel1" }⟩
        wTransOk)).error_message = "" := by
  obtain ⟨r2, h1, h2, h3, h4, h5, h6, h7, h8, h9, h10⟩ :=
    C2_fallback_success true true true true true "Instaloader" "u" "sess/reel1" 1
      [] [] "primary down" {} wTransOk rfl rfl
  exact h9

/-- Witness for C4 at a concrete input: transcription fails with
`whisper crashed` after a fallback-engine success; the item still reaches
completion after exactly two engine calls. -/
theorem C4_transcription_best_effort_witness :
    (process_item (mkOptions true true true true true "Instaloader") "u" 1
        ⟨[], .error "primary down"⟩
        ⟨[], .ok { ({} : ReelResult) with
          folder_path := some "sess/reel1"
          audio_path := some "sess/reel1/audio1.mp3" }⟩
        { whisperLoaded := true, audioFileExists := true, tempExtractOk := true,
          ffmpegSetup := .ok (), whisperOut := .error "whisper crashed",
          transcriptWrite := .ok () }).attempts = 2 := by
  obtain ⟨hA, hB⟩ :=
    C4_transcription_best_effort true true true true "Instaloader" "u" "sess/reel1"
      "sess/reel1/audio1.mp3" "whisper crashed" "primary down" 1 [] [] {} true
      (.ok ()) ⟨[], .error "unused"⟩ rfl rfl
  obtain ⟨r2, g1, g2, g3, g4, g5, g6, g7, g8, g9⟩ := hB
  exact g9

/-- Witness for C5 at a concrete input: with `audio = false` the
Instaloader audio-extraction step is a no-op. -/
theorem C5_no_audio_normalization_witness :
    insta_extract_audio (mkOptions true true false true true "yt-dlp") wInstaOk
      true "f" 1 {} = ([], {}) := by
  exact (C5_no_audio_normalization true true false true true "yt-dlp").2.2.1
    rfl wInstaOk true "f" 1 {}

/-- Witness for C6 at a concrete input: yt-dlp thumbnail HTTP failure
aborts the fetch with that failure. -/
theorem C6_partial_artifact_policy_witness :
    (ytDlp_download_reel (mkOptions true true true true false "yt-dlp")
        { ensureYtDlp := true, exeExists := true, binDir := "bin", videoDl := .ok (),
          metadata := .ok { thumbnail := some "mu", description := some "d", title := some "T" },
          thumbFetch := .error "thumb boom", captionWrite := .ok (), isFrozen := false,
          ensureFfmpeg := true, videoFileExists := true, audioExtractOk := true }
        urlABC "sess" 1).out = .error "thumb boom" := by
  exact (C6_partial_artifact_policy true true true false true "yt-dlp" urlABC "sess"
    "tu" "thumb boom" "cap boom" "bin" "mu" (some "c") (some "d") (some "T")
    true true false true 1 rfl).2.2.1

/-- Witness for C7 at the default backend configuration: all three backends
fail, so the raw text is returned unchanged. -/
theorem C7_cleanup_fallback_witness :
    post_process_with_llm "raw text"
      [("meta-llama/llama-4-scout-17b-16e-instruct", .error "rate limited"),
       ("llama-3.3-70b-versatile", .error "rate limited"),
       ("llama-3.1-8b-instant", .error "down")] = "raw text" := by
  exact (C7_cleanup_fallback "meta-llama/llama-4-scout-17b-16e-instruct"
    "llama-3.3-70b-versatile" "llama-3.1-8b-instant" "raw text"
    (.error "rate limited") (.error "rate limited") (.error "down")
    (by decide) (by decide)).2.2.2.1 "rate limited" "rate limited" "down" rfl rfl rfl

/-- Witness for C8 at a concrete input: a 26 MB file of 600 s is re-encoded
mono at the capped 128 kbps into the `compressed_` sibling path. -/
theorem C8_compression_policy_witness :
    _compress_audio_if_needed
      { sizeBytes := 26000000, pydubAvailable := true, pydubLoad := .ok 600000,
        pydubExport := .ok (), ffprobeDurationMs := none, ffmpegRun := .ok () }
      "/a/b.mp3"
      = .ok ⟨"/a/compressed_b.mp3", some 128, true⟩ := by
  have h := (C8_compression_policy).2.1 26000000 600000 "/a/b.mp3" none (.ok ())
    (by decide) (by decide)
  exact h.trans (by decide)

/-- Witness for C9 at a concrete input: an all-success Instaloader-primary
run without transcription emits non-decreasing percents. -/
theorem C9_progress_policy_witness :
    nonDecreasing (progressPcts
      (process_downloads_item (mkOptions true true true true false "Instaloader")
        { post := .ok { thumbUrl := some "tu", caption := some "c" }, videoFetch := .ok (),
          thumbFetch := .ok (), audioExtractOk := true, captionWrite := .ok () }
        wYtOk wTransOk urlABC "sess" 1).events) = true := by
  exact (C9_progress_policy).2.2 true true true true true "sess" urlABC "tu"
    (some "c") (.ok ()) (.ok ()) 1 wYtOk wTransOk rfl

/-- Witness for C10 at a concrete input: the video file is written although
`want_video` is false. -/
theorem C10_video_on_disk_witness :
    (instaloader_download_reel (mkOptions false true true true false "Instaloader")
        { post := .ok { thumbUrl := some "tu", caption := some "c" }, videoFetch := .ok (),
          thumbFetch := .ok (), audioExtractOk := true, captionWrite := .ok () }
        urlABC "sess" 1).wroteVideo = true := by
  exact (C10_video_on_disk_not_in_result true true false true "Instaloader" urlABC "sess"
    { thumbUrl := some "tu", caption := some "c" } (.ok ()) (.ok ()) true 1
    rfl rfl).1

end InstaDl
